import Mathlib

/-!
Verification of the MoonDock event pipeline (src/moondock/events/parser.py and
src/moondock/events/watcher.py) against its natural-language specification.

The Python code is shallowly embedded:
* Python values are modelled by the inductive `PyVal` (numbers are exact
  rationals — an idealization of IEEE floats that preserves the arithmetic the
  code performs on timestamps and backoff durations);
* operations that can raise (`.lower()` on a non-string, dict lookup with an
  unhashable key, `.get` on a non-dict) return `Except PyErr _`;
* `time.time()` is passed explicitly as a `now : ℚ` parameter;
* the watcher loop `DockerEventWatcher._run` is embedded as a step function
  over a script of connection-attempt outcomes, producing a trace of
  observable actions (stream opens, callback dispatches, sleeps, fatal stop).
  The cancellation flag is modelled as constant over one run: it is only ever
  set before the run starts (cancellation arriving mid-run is a real-time
  concurrency phenomenon outside this embedding).
-/

namespace MoonDock

/-- Python runtime values, as far as the event pipeline inspects them.
Numbers carry their exact value as a rational; `bool` is kept separate because
Python's `isinstance(x, int)` accepts booleans and `int(True) = 1`. -/
inductive PyVal where
  | none : PyVal
  | bool : Bool → PyVal
  | int : Int → PyVal
  | float : ℚ → PyVal
  | str : String → PyVal
  | list : List PyVal → PyVal
  | dict : List (PyVal × PyVal) → PyVal
  deriving Repr

/-- Exceptions the embedded fragment can raise. -/
inductive PyErr where
  | attributeError : PyErr
  | typeError : PyErr
  deriving Repr, DecidableEq

/-- Python truthiness (`bool(v)`). -/
def truthy : PyVal → Bool
  | .none => false
  | .bool b => b
  | .int n => n != 0
  | .float q => q != 0
  | .str s => s ≠ ""
  | .list l => !l.isEmpty
  | .dict d => !d.isEmpty

/-- Python `a or b`: returns `a` when it is truthy, else `b`. -/
def pyOr (a b : PyVal) : PyVal := if truthy a then a else b

/-- `d.get(k)` for a string key `k`, returning `None` when absent.
A string key in Python compares equal only to a string, so entries whose key
is not a string are skipped. Raw events are built without duplicate keys, so
first-match lookup agrees with Python's dict. -/
def dictGet : List (PyVal × PyVal) → String → PyVal
  | [], _ => .none
  | (PyVal.str s, v) :: rest, k => if s = k then v else dictGet rest k
  | _ :: rest, k => dictGet rest k

/-- `isinstance(v, (int, float))` — true for bools, ints and floats. -/
def isNum : PyVal → Bool
  | .bool _ => true
  | .int _ => true
  | .float _ => true
  | _ => false

/-- The numeric value of a number (`float(v)` on a bool/int/float). -/
def numVal : PyVal → ℚ
  | .bool b => if b then 1 else 0
  | .int n => (n : ℚ)
  | .float q => q
  | _ => 0

/-- Python `str.strip()`: drop whitespace from both ends (structural,
character-list based). -/
def trimChars (l : List Char) : List Char :=
  ((l.dropWhile Char.isWhitespace).reverse.dropWhile Char.isWhitespace).reverse

/-- Python `str.strip()` on a string. -/
def pyStrip (s : String) : String := String.mk (trimChars s.toList)

/-- Python `str.lower()` (ASCII case mapping, structural). -/
def lowerString (s : String) : String := String.mk (s.toList.map Char.toLower)

/-- Parse a decimal integer literal with optional sign, whole string. -/
def parseIntDigits : List Char → Option Nat
  | [] => Option.none
  | [c] => if c.isDigit then some (c.toNat - 48) else Option.none
  | c :: rest =>
    if c.isDigit then
      match parseIntDigits rest with
      | some n => some ((c.toNat - 48) * 10 ^ rest.length + n)
      | Option.none => Option.none
    else Option.none

/-- Python `int(s)` on a string: optional sign then digits, surrounding
whitespace stripped; anything else raises (modelled as `none`). -/
def parseIntStr (s : String) : Option Int :=
  match trimChars s.toList with
  | '-' :: rest => (parseIntDigits rest).map (fun n => -(n : Int))
  | '+' :: rest => (parseIntDigits rest).map (fun n => (n : Int))
  | l => (parseIntDigits l).map (fun n => (n : Int))

/-- Python `int(v)`; `none` models the exceptions `int` raises on
unconvertible values (caught locally by the exit-code scan). Floats truncate
toward zero. -/
def pyToInt : PyVal → Option Int
  | .bool b => some (if b then 1 else 0)
  | .int n => some n
  | .float q => some (if q ≥ 0 then ⌊q⌋ else ⌈q⌉)
  | .str s => parseIntStr s
  | _ => Option.none

/-- `v.lower()`: defined on strings, raises `AttributeError` otherwise. -/
def pyLower : PyVal → Except PyErr String
  | .str s => .ok (lowerString s)
  | _ => .error .attributeError

/-- The `_ACTION_NORMALIZATION` table of parser.py. -/
def ACTION_NORMALIZATION : String → Option String := fun s =>
  if s = "create" then some "create"
  else if s = "start" then some "start"
  else if s = "stop" then some "stop"
  else if s = "die" then some "die"
  else if s = "destroy" then some "destroy"
  else if s = "restart" then some "restart"
  else if s = "pause" then some "pause"
  else if s = "unpause" then some "unpause"
  else if s = "health_status: healthy" then some "health_healthy"
  else if s = "health_status: unhealthy" then some "health_unhealthy"
  else if s = "pull" then some "pull"
  else if s = "push" then some "push"
  else Option.none

/-- `_ACTION_NORMALIZATION.get(v)`: raises `TypeError` on an unhashable key
(list/dict), misses on hashable non-string keys. -/
def actionTableGet : PyVal → Except PyErr (Option String)
  | .list _ => .error .typeError
  | .dict _ => .error .typeError
  | .str s => .ok (ACTION_NORMALIZATION s)
  | _ => .ok Option.none

/-- `_normalize_action` of parser.py. Returns `none` for a falsy raw action;
for a table hit, the canonical verb; otherwise `strip().lower()` of the
string, with the internal `except` falling back to the raw value itself when
the value has no `strip` (a non-string). The table lookup happens outside
that `try` and can raise on an unhashable key. -/
def normalize_action (rawAction : PyVal) : Except PyErr (Option PyVal) :=
  if !truthy rawAction then .ok Option.none
  else
    match actionTableGet rawAction with
    | .error e => .error e
    | .ok (some n) => .ok (some (.str n))
    | .ok Option.none =>
      match rawAction with
      | .str s => .ok (some (.str (lowerString (pyStrip s))))
      | v => .ok (some v)

/-- `_to_timestamp` of parser.py, on an event dict (`parse_event` only calls
it with a dict; the `raw is None` guard in the source is then dead).
`now` stands for `time.time()`. -/
def to_timestamp (d : List (PyVal × PyVal)) (now : ℚ) : ℚ :=
  let t := dictGet d "time"
  if isNum t = true ∧ numVal t > 0 then numVal t
  else
    let tnano := dictGet d "timeNano"
    if isNum tnano = true ∧ numVal tnano > 0 then numVal tnano / 1000000000
    else
      let t_alt := pyOr (dictGet d "timestamp") (dictGet d "timeStamp")
      if isNum t_alt = true ∧ numVal t_alt > 0 then numVal t_alt
      else now

/-- `_safe_get_actor_attributes` of parser.py. Raises `AttributeError` when
`raw.get("Actor") or raw.get("actor") or {}` yields a truthy non-dict (its
`.get` then fails); a non-dict `Attributes` value degrades to `{}`. -/
def safe_get_actor_attributes (d : List (PyVal × PyVal)) :
    Except PyErr (List (PyVal × PyVal)) :=
  let actor := pyOr (dictGet d "Actor") (pyOr (dictGet d "actor") (.dict []))
  match actor with
  | .dict ad =>
    let attrs := pyOr (dictGet ad "Attributes") (pyOr (dictGet ad "attributes") (.dict []))
    match attrs with
    | .dict al => .ok al
    | _ => .ok []
  | _ => .error .attributeError

/-- One probe of the exit-code scan: `val = attrs.get(key)`, falling back to
`raw.get(key)` when the attribute value is `None`. -/
def scanKey (attrs d : List (PyVal × PyVal)) (key : String) : PyVal :=
  match dictGet attrs key with
  | .none => dictGet d key
  | v => v

/-- The exit-code loop of `_extract_container_info`: for each key in order,
probe attributes then top level; a non-`None` value that converts with
`int(...)` ends the scan, a failing conversion is ignored and the scan
moves on to the next key. -/
def exitCodeScan (attrs d : List (PyVal × PyVal)) : List String → Option Int
  | [] => Option.none
  | key :: rest =>
    match scanKey attrs d key with
    | .none => exitCodeScan attrs d rest
    | v =>
      match pyToInt v with
      | some n => some n
      | Option.none => exitCodeScan attrs d rest

/-- The result record of `_extract_container_info`. -/
structure ContainerInfo where
  id : PyVal
  name : PyVal
  image : PyVal
  exit_code : Option Int
  attributes : List (PyVal × PyVal)
  deriving Repr

/-- `_extract_container_info` of parser.py. -/
def extract_container_info (d : List (PyVal × PyVal)) : Except PyErr ContainerInfo :=
  match safe_get_actor_attributes d with
  | .error e => .error e
  | .ok attrs =>
    let container_id := pyOr (dictGet d "id") (pyOr (dictGet d "ID")
      (pyOr (dictGet attrs "container") (dictGet attrs "id")))
    let name := pyOr (dictGet attrs "name") (pyOr (dictGet attrs "container") .none)
    let image := pyOr (dictGet attrs "image") (pyOr (dictGet attrs "image.name") .none)
    let exit_code := exitCodeScan attrs d ["exitCode", "exit_code", "exit"]
    .ok ⟨container_id, name, image, exit_code, attrs⟩

/-- The `NormalizedEvent` dataclass. Python does not enforce the annotations,
so `action`, `id`, `name`, `image` hold whatever value the extraction
produced. -/
structure NormalizedEvent where
  domain : String
  action : PyVal
  id : PyVal
  name : PyVal
  image : PyVal
  exit_code : Option Int
  timestamp : ℚ
  attributes : List (PyVal × PyVal)
  raw : PyVal
  deriving Repr

/-- The body of the `try` block of `parse_event` (lines 165–205): build the
event for the container or the generic domain; any exception here is caught
by the enclosing `except` and converted to `None`. -/
def parseEventBody (raw : PyVal) (d : List (PyVal × PyVal)) (domain : String)
    (action : PyVal) (ts : ℚ) : Except PyErr (Option NormalizedEvent) :=
  if domain = "container" then
    match extract_container_info d with
    | .error e => .error e
    | .ok info =>
      .ok (some
        { domain := domain
          action := action
          id := pyOr info.id (.str "<unknown>")
          name := info.name
          image := info.image
          exit_code := info.exit_code
          timestamp := ts
          attributes := info.attributes
          raw := raw })
  else
    let resource_id := pyOr (dictGet d "id") (pyOr (dictGet d "ID") .none)
    match safe_get_actor_attributes d with
    | .error e => .error e
    | .ok attrs =>
      .ok (some
        { domain := domain
          action := action
          id := pyOr resource_id (.str "<unknown>")
          name := dictGet attrs "name"
          image := dictGet attrs "image"
          exit_code := Option.none
          timestamp := ts
          attributes := attrs
          raw := raw })

/-- `parse_event` of parser.py. `.ok none` is the absent result; `.error e`
is an exception escaping to the caller. The domain lowering (line 152), the
action normalization (line 155) and the timestamp extraction (line 162) run
before the `try` block, so exceptions they raise are NOT converted to
`None`. -/
def parse_event (raw : PyVal) (now : ℚ) : Except PyErr (Option NormalizedEvent) :=
  match raw with
  | .dict d =>
    match pyLower (pyOr (dictGet d "Type") (pyOr (dictGet d "type") (.str "unknown"))) with
    | .error e => .error e
    | .ok domain =>
      let rawAction := pyOr (dictGet d "Action") (pyOr (dictGet d "action") (dictGet d "status"))
      match normalize_action rawAction with
      | .error e => .error e
      | .ok act =>
        match act with
        | Option.none => .ok Option.none
        | some a =>
          if !truthy a then .ok Option.none
          else
            let ts := to_timestamp d now
            match parseEventBody raw d domain a ts with
            | .ok ev => .ok ev
            | .error _ => .ok Option.none
  | _ => .ok Option.none

namespace DockerEventWatcher

/-- The configuration of `DockerEventWatcher.__init__` (durations as exact
rationals). -/
structure WatcherConfig where
  initial_backoff : ℚ
  backoff_factor : ℚ
  max_backoff : ℚ
  max_retries : Option ℕ
  deriving Repr, DecidableEq

/-- The loop-local mutable state of `_run`: the retry counter and the
current backoff duration. -/
structure LoopState where
  retries : ℕ
  backoff : ℚ
  deriving Repr, DecidableEq

/-- Observable actions of one run of the loop: a `client.events` open
attempt, a callback invocation for the k-th yielded event (and the logged
callback failure when the handler raises), a `time.sleep`, and the
critical-log-and-break when the retry ceiling is exceeded. -/
inductive Obs where
  | openStream : Obs
  | dispatch : ℕ → Obs
  | handlerError : ℕ → Obs
  | sleep : ℚ → Obs
  | fatal : Obs
  deriving Repr, DecidableEq

/-- How a successfully opened stream iteration ends: the source closes
without error, or raises a transport/API error (`APIError`,
`DockerException`, `OSError`), or raises an unclassified exception. -/
inductive EndKind where
  | closed : EndKind
  | raiseConn : EndKind
  | raiseOther : EndKind
  deriving Repr, DecidableEq

/-- The outcome of one connection attempt, as the environment presents it:
the open itself raises a transport/API error, or raises an unclassified
error, or succeeds and yields a list of events (each flag records whether
the caller-supplied handler raises on that event) before ending. -/
inductive Attempt where
  | connError : Attempt
  | otherError : Attempt
  | stream : List Bool → EndKind → Attempt
  deriving Repr, DecidableEq

/-- `backoff = min(backoff * self.backoff_factor, self.max_backoff)`
(line 127 / 132). -/
def escalate (cfg : WatcherConfig) (b : ℚ) : ℚ :=
  min (b * cfg.backoff_factor) cfg.max_backoff

/-- `self.max_retries is not None and retries > self.max_retries`
(line 115). -/
def exceeded (cfg : WatcherConfig) (r : ℕ) : Bool :=
  match cfg.max_retries with
  | some m => r > m
  | Option.none => false

/-- The `except (APIError, DockerException, OSError)` branch
(lines 111–127): increment the retry counter; stop fatally when the ceiling
is exceeded; otherwise sleep the current backoff, then escalate it.
`none` as second component means the loop breaks. -/
def onConnError (cfg : WatcherConfig) (s : LoopState) : List Obs × Option LoopState :=
  let r := s.retries + 1
  if exceeded cfg r then ([Obs.fatal], Option.none)
  else ([Obs.sleep s.backoff], some ⟨r, escalate cfg s.backoff⟩)

/-- The `except Exception` branch (lines 129–132): log, sleep the current
backoff, escalate it; the retry counter is not touched and the ceiling is
not consulted. -/
def onOtherError (cfg : WatcherConfig) (s : LoopState) : List Obs × Option LoopState :=
  ([Obs.sleep s.backoff], some ⟨s.retries, escalate cfg s.backoff⟩)

/-- The unexpected-closure path (lines 103–109, cancellation not
requested): warn, sleep the current backoff, loop again; retry counter and
backoff are left as they are. -/
def onStreamClosed (s : LoopState) : List Obs × Option LoopState :=
  ([Obs.sleep s.backoff], some s)

/-- `retries = 0; backoff = self.initial_backoff` right after a successful
open (lines 90–91). -/
def afterOpenReset (cfg : WatcherConfig) : LoopState :=
  ⟨0, cfg.initial_backoff⟩

/-- The `for raw_event in stream` body (lines 93–101) with cancellation
never requested during the run: every yielded event is dispatched to the
callback; a raising handler (flag `true`) is caught and logged and the
iteration continues. -/
def dispatchObs : List Bool → ℕ → List Obs
  | [], _ => []
  | e :: rest, k =>
    Obs.dispatch k :: ((if e then [Obs.handlerError k] else []) ++ dispatchObs rest (k + 1))

/-- One iteration of the `while` body of `_run`, given the environment's
outcome for this connection attempt. Returns the observable actions and
either the state for the next iteration or `none` when the loop breaks. -/
def stepIter (cfg : WatcherConfig) (s : LoopState) : Attempt → List Obs × Option LoopState
  | .connError =>
    let r := onConnError cfg s
    (Obs.openStream :: r.1, r.2)
  | .otherError =>
    let r := onOtherError cfg s
    (Obs.openStream :: r.1, r.2)
  | .stream evs ek =>
    let s1 := afterOpenReset cfg
    let tail :=
      match ek with
      | .closed => onStreamClosed s1
      | .raiseConn => onConnError cfg s1
      | .raiseOther => onOtherError cfg s1
    (Obs.openStream :: (dispatchObs evs 0 ++ tail.1), tail.2)

/-- The `while not self._stop_event.is_set()` loop of `_run`, observed over
a finite script of attempt outcomes. `stopRequested` is the cancellation
flag, constant over the run (set before the run or never). -/
def runLoop (cfg : WatcherConfig) (stopRequested : Bool) :
    LoopState → List Attempt → List Obs
  | _, [] => []
  | s, a :: rest =>
    if stopRequested then []
    else
      let r := stepIter cfg s a
      r.1 ++ (match r.2 with
              | some s2 => runLoop cfg stopRequested s2 rest
              | Option.none => [])

/-- The sleep durations of a trace, in order. -/
def sleepsOf (tr : List Obs) : List ℚ :=
  tr.filterMap (fun o => match o with | Obs.sleep q => some q | _ => Option.none)

/-- The dispatched event indices of a trace, in order. -/
def dispatchesOf (tr : List Obs) : List ℕ :=
  tr.filterMap (fun o => match o with | Obs.dispatch k => some k | _ => Option.none)

/-- The number of stream-open attempts in a trace. -/
def openCount (tr : List Obs) : ℕ :=
  tr.countP (fun o => match o with | Obs.openStream => true | _ => false)

/-- The public operations that touch the cancellation flag:
`start_in_background` and `start_forever` never write it, `stop` sets it
(`self._stop_event.set()`, line 69); no method clears it. -/
inductive WatcherOp where
  | start_in_background : WatcherOp
  | start_forever : WatcherOp
  | stop : WatcherOp
  deriving Repr, DecidableEq

/-- Effect of an operation on the cancellation flag. -/
def applyOp (flag : Bool) : WatcherOp → Bool
  | .stop => true
  | _ => flag

end DockerEventWatcher

/-! Spec-side definitions and concrete inputs used by the claim theorems. -/

/-- The timestamp chain exactly as claim C6 words it, for comparison with
`to_timestamp`: rules (1) and (2) require a numeric, positive value, but
rule (3) asks only for "a numeric `timestamp`/`timeStamp` value as
seconds", with no positivity requirement. -/
def claimTimestampChain (d : List (PyVal × PyVal)) (now : ℚ) : ℚ :=
  let t := dictGet d "time"
  if isNum t = true ∧ numVal t > 0 then numVal t
  else
    let tnano := dictGet d "timeNano"
    if isNum tnano = true ∧ numVal tnano > 0 then numVal tnano / 1000000000
    else
      let ts := dictGet d "timestamp"
      if isNum ts = true then numVal ts
      else
        let tS := dictGet d "timeStamp"
        if isNum tS = true then numVal tS
        else now

/-- The exit-code scan exactly as claim C7 words it, for comparison with
`exitCodeScan`: all three attribute keys first, then the three equivalent
top-level keys, taking the first value that parses as an integer (absent
keys and non-integer values are skipped). -/
def claimExitCodeScanOrder (attrs d : List (PyVal × PyVal)) : Option Int :=
  ((["exitCode", "exit_code", "exit"].map (dictGet attrs)) ++
    (["exitCode", "exit_code", "exit"].map (dictGet d))).findSome? pyToInt

/-- Whether a Python value is a string. -/
def isStr : PyVal → Bool
  | .str _ => true
  | _ => false

/-- A well-formed container "die" raw event with `exitCode: "137"` in the
actor attributes (the round-trip input of claim C7 and §8 of the spec). -/
def dieRaw : PyVal :=
  .dict [(.str "Type", .str "container"), (.str "Action", .str "die"),
    (.str "id", .str "abc123"), (.str "time", .int 42),
    (.str "Actor", .dict [(.str "Attributes", .dict
      [(.str "name", .str "my_test_container"),
       (.str "image", .str "busybox:latest"),
       (.str "exitCode", .str "137")])])]

/-- The canonical event `parse_event` produces for `dieRaw`. -/
def dieEvent : NormalizedEvent :=
  { domain := "container"
    action := .str "die"
    id := .str "abc123"
    name := .str "my_test_container"
    image := .str "busybox:latest"
    exit_code := some 137
    timestamp := 42
    attributes := [(.str "name", .str "my_test_container"),
                   (.str "image", .str "busybox:latest"),
                   (.str "exitCode", .str "137")]
    raw := dieRaw }

/-- The raw event of the C8 counterexample: a container event whose
`Action` value is the integer `5` — truthy, hashable, but not a string. -/
def actionFiveRaw : PyVal :=
  .dict [(.str "Type", .str "container"), (.str "Action", .int 5)]

/-- The event `parse_event` produces for `actionFiveRaw`: its `action`
field is the integer 5, not a string. -/
def actionFiveEvent : NormalizedEvent :=
  { domain := "container"
    action := .int 5
    id := .str "<unknown>"
    name := .none
    image := .none
    exit_code := Option.none
    timestamp := 0
    attributes := []
    raw := actionFiveRaw }

namespace DockerEventWatcher

/-- The configuration of the spec's backoff example: initial 1, growth
factor 2, cap 5, no retry ceiling. -/
def cfgBackoffDemo : WatcherConfig := ⟨1, 2, 5, Option.none⟩

/-- A configuration with `max_retries = 3` (claim C3). -/
def cfgRetryDemo : WatcherConfig := ⟨1, 2, 60, some 3⟩

/-- A configuration with `max_retries = 0`: the first counted connection
error already exceeds the ceiling (used to separate counted from uncounted
faults in claim C4). -/
def cfgCeilZero : WatcherConfig := ⟨1, 2, 60, some 0⟩

end DockerEventWatcher

/-! Claim theorems. -/

/-- C1: the spec (and the function's own docstring) promise that
`parse_event` never raises to its caller. The code violates this: on the
raw mapping `{"Type": 5, "Action": "start"}` — a mapping with a resolvable
action — the domain lowering `(raw.get("Type") or ...).lower()` at line 152
runs before the `try` block and raises `AttributeError` on the integer
`Type` value, escaping to the caller instead of yielding absent. -/
theorem c1_parse_event_raises_on_nonstring_type :
    parse_event (.dict [(.str "Type", .int 5), (.str "Action", .str "start")]) 0
      = .error .attributeError := rfl

/-- C6 counterexample: the claim's rule (3) accepts any numeric
`timestamp` value, but the code additionally requires it to be positive.
On `{"timestamp": -5}` (with wall clock 100) the code returns the wall
clock, the claim's chain returns −5. -/
theorem c6_counterexample :
    to_timestamp [(.str "timestamp", .int (-5))] 100 = 100 ∧
    claimTimestampChain [(.str "timestamp", .int (-5))] 100 = -5 ∧
    (100 : ℚ) ≠ -5 := by
  refine ⟨rfl, rfl, by norm_num⟩

/-- C6 amended: the timestamp is resolved by the first satisfied rule of:
(1) a numeric, positive `time` value as whole seconds; (2) a numeric,
positive `timeNano` value divided by 1e9; (3) a numeric AND POSITIVE value
of `timestamp or timeStamp` (Python `or`: the `timestamp` value when
truthy, else `timeStamp`) as seconds; (4) the current wall-clock time.
In particular, with both `time` and `timeNano` present `time` wins, and
with only `timeNano` the result is `timeNano / 1e9`. -/
theorem c6_timestamp_chain_amended :
    (∀ d now, isNum (dictGet d "time") = true ∧ numVal (dictGet d "time") > 0 →
        to_timestamp d now = numVal (dictGet d "time")) ∧
    (∀ d now, ¬ (isNum (dictGet d "time") = true ∧ numVal (dictGet d "time") > 0) →
        isNum (dictGet d "timeNano") = true ∧ numVal (dictGet d "timeNano") > 0 →
        to_timestamp d now = numVal (dictGet d "timeNano") / 1000000000) ∧
    (∀ d now, ¬ (isNum (dictGet d "time") = true ∧ numVal (dictGet d "time") > 0) →
        ¬ (isNum (dictGet d "timeNano") = true ∧ numVal (dictGet d "timeNano") > 0) →
        isNum (pyOr (dictGet d "timestamp") (dictGet d "timeStamp")) = true ∧
          numVal (pyOr (dictGet d "timestamp") (dictGet d "timeStamp")) > 0 →
        to_timestamp d now = numVal (pyOr (dictGet d "timestamp") (dictGet d "timeStamp"))) ∧
    (∀ d now, ¬ (isNum (dictGet d "time") = true ∧ numVal (dictGet d "time") > 0) →
        ¬ (isNum (dictGet d "timeNano") = true ∧ numVal (dictGet d "timeNano") > 0) →
        ¬ (isNum (pyOr (dictGet d "timestamp") (dictGet d "timeStamp")) = true ∧
            numVal (pyOr (dictGet d "timestamp") (dictGet d "timeStamp")) > 0) →
        to_timestamp d now = now) ∧
    to_timestamp [(.str "time", .int 5), (.str "timeNano", .int 7000000000)] 0 = 5 ∧
    to_timestamp [(.str "timeNano", .int 3000000000)] 0 = 3 := by
  refine ⟨?_, ?_, ?_, ?_,
    by simp +decide [to_timestamp, dictGet, isNum, numVal, pyOr, truthy],
    by simp +decide [to_timestamp, dictGet, isNum, numVal, pyOr, truthy]; norm_num⟩
  · intro d now h
    unfold to_timestamp
    rw [if_pos h]
  · intro d now h1 h2
    unfold to_timestamp
    rw [if_neg h1, if_pos h2]
  · intro d now h1 h2 h3
    unfold to_timestamp
    rw [if_neg h1, if_neg h2, if_pos h3]
  · intro d now h1 h2 h3
    unfold to_timestamp
    rw [if_neg h1, if_neg h2, if_neg h3]

/-- C6 witness: rule (1) applied at `{"time": 5}` with wall clock 77. -/
theorem c6_amended_witness :
    to_timestamp [(PyVal.str "time", PyVal.int 5)] 77
      = numVal (dictGet [(PyVal.str "time", PyVal.int 5)] "time") :=
  c6_timestamp_chain_amended.1 [(PyVal.str "time", PyVal.int 5)] 77 ⟨rfl, by norm_num [dictGet, numVal]⟩

/-- The exit-code loop, re-expressed: the result is the first key (in the
key-list order) whose attribute-then-top-level probe yields a value that
parses as an integer. -/
theorem exitCodeScan_eq_findSome (attrs d : List (PyVal × PyVal)) :
    ∀ keys, exitCodeScan attrs d keys
      = keys.findSome? (fun k => pyToInt (scanKey attrs d k)) := by
  intro keys
  induction keys with
  | nil => rfl
  | cons key rest ih =>
    rw [List.findSome?_cons]
    show (match scanKey attrs d key with
      | PyVal.none => exitCodeScan attrs d rest
      | v => match pyToInt v with
             | some n => some n
             | Option.none => exitCodeScan attrs d rest) = _
    rw [ih]
    cases scanKey attrs d key <;> try rfl
    rename_i s
    simp only [pyToInt]
    cases parseIntStr s <;> rfl

/-- C7 counterexample: the claim's scan order is all three attribute keys
first, then the three top-level keys; the code interleaves them per key
(attribute `exitCode`, top-level `exitCode`, attribute `exit_code`, ...).
With attributes `{"exit_code": "5"}` and top level `{"exitCode": 7}` the
code takes the top-level `exitCode` 7, while the claim's order would take
the attribute `exit_code` 5 first. -/
theorem c7_counterexample :
    exitCodeScan [(.str "exit_code", .str "5")] [(.str "exitCode", .int 7)]
        ["exitCode", "exit_code", "exit"] = some 7 ∧
    claimExitCodeScanOrder [(.str "exit_code", .str "5")] [(.str "exitCode", .int 7)] = some 5 ∧
    some (7 : Int) ≠ some 5 := ⟨rfl, rfl, by decide⟩

/-- C7 amended: for a container event, `id` resolves from top-level
`id`/`ID` then actor attributes `container`/`id`, `name` from attributes
`name`/`container`, `image` from attributes `image`/`image.name`; and
`exit_code` is found by scanning the keys `exitCode`, `exit_code`, `exit`
IN ORDER, for each key probing the attribute value and, when that is
absent, the equivalent top-level value, taking the first probed value that
parses as an integer and ignoring values that do not parse. A well-formed
container "die" event with `exitCode: "137"` in attributes normalizes to
domain="container", action="die", exit_code=137, with name and image from
attributes. -/
theorem c7_container_extraction_amended :
    (∀ attrs d keys, exitCodeScan attrs d keys
        = keys.findSome? (fun k => pyToInt (scanKey attrs d k))) ∧
    (∀ d, (extract_container_info d).map ContainerInfo.exit_code
        = (safe_get_actor_attributes d).map
            (fun attrs => exitCodeScan attrs d ["exitCode", "exit_code", "exit"])) ∧
    (∀ d, (extract_container_info d).map ContainerInfo.id
        = (safe_get_actor_attributes d).map
            (fun attrs => pyOr (dictGet d "id") (pyOr (dictGet d "ID")
              (pyOr (dictGet attrs "container") (dictGet attrs "id"))))) ∧
    (∀ d, (extract_container_info d).map ContainerInfo.name
        = (safe_get_actor_attributes d).map
            (fun attrs => pyOr (dictGet attrs "name") (pyOr (dictGet attrs "container") .none))) ∧
    (∀ d, (extract_container_info d).map ContainerInfo.image
        = (safe_get_actor_attributes d).map
            (fun attrs => pyOr (dictGet attrs "image") (pyOr (dictGet attrs "image.name") .none))) ∧
    parse_event dieRaw 0 = .ok (some dieEvent) := by
  refine ⟨fun attrs d => exitCodeScan_eq_findSome attrs d, ?_, ?_, ?_, ?_, rfl⟩ <;>
    (intro d
     unfold extract_container_info
     cases safe_get_actor_attributes d <;> rfl)

/-- The event built inside the `try` block always carries the already
checked action value. -/
theorem parseEventBody_action {raw : PyVal} {d : List (PyVal × PyVal)}
    {domain : String} {a : PyVal} {ts : ℚ} {ev : NormalizedEvent} :
    parseEventBody raw d domain a ts = .ok (some ev) → ev.action = a := by
  unfold parseEventBody
  split
  · cases extract_container_info d with
    | error e => intro h; exact Except.noConfusion h
    | ok info =>
      intro h
      injection h with h1
      injection h1 with h2
      rw [← h2]
  · cases safe_get_actor_attributes d with
    | error e => intro h; exact Except.noConfusion h
    | ok attrs =>
      intro h
      injection h with h1
      injection h1 with h2
      rw [← h2]

/-- C8 counterexample: the claim says every returned event has a non-empty
STRING action. On `{"Type": "container", "Action": 5}` the table lookup
misses, `strip()` raises inside `_normalize_action`'s local `try`, and the
fallback returns the raw value itself, so `parse_event` returns an event
whose `action` is the integer 5 — truthy, but not a string. -/
theorem c8_counterexample :
    parse_event actionFiveRaw 0 = .ok (some actionFiveEvent) ∧
    isStr actionFiveEvent.action = false := ⟨rfl, rfl⟩

/-- C8 amended: whenever the normalizer returns an event, the event's
action is a truthy (hence non-empty) value: a non-empty string whenever
the resolved raw action was a string or a table hit, and otherwise the
truthy raw action value passed through unchanged. A canonical event is
only constructed from a raw event whose normalized action passed the
truthiness check. -/
theorem c8_action_truthy_amended :
    ∀ raw now ev, parse_event raw now = Except.ok (some ev) → truthy ev.action = true := by
  intro raw now ev h
  cases raw with
  | dict d =>
    simp only [parse_event] at h
    cases hl : pyLower (pyOr (dictGet d "Type") (pyOr (dictGet d "type") (.str "unknown"))) with
    | error e => rw [hl] at h; exact Except.noConfusion h
    | ok domain =>
      rw [hl] at h
      cases hn : normalize_action
          (pyOr (dictGet d "Action") (pyOr (dictGet d "action") (dictGet d "status"))) with
      | error e => rw [hn] at h; exact Except.noConfusion h
      | ok act =>
        rw [hn] at h
        cases act with
        | none => simp at h
        | some a =>
          simp only [] at h
          by_cases ht : truthy a = true
          · rw [if_neg (by simp [ht])] at h
            cases hb : parseEventBody (.dict d) d domain a (to_timestamp d now) with
            | error e => rw [hb] at h; simp at h
            | ok ev2 =>
              rw [hb] at h
              injection h with h1
              rw [h1] at hb
              rw [parseEventBody_action hb]
              exact ht
          · rw [if_pos (by simpa using ht)] at h
            simp at h
  | none => simp [parse_event] at h
  | bool b => simp [parse_event] at h
  | int n => simp [parse_event] at h
  | float q => simp [parse_event] at h
  | str s => simp [parse_event] at h
  | list l => simp [parse_event] at h

/-- C8 witness: the amended invariant applied to a concrete generic event
with action "start". -/
theorem c8_amended_witness : truthy (PyVal.str "start") = true :=
  c8_action_truthy_amended
    (.dict [(.str "Type", .str "x"), (.str "Action", .str "start")]) 0
    ⟨"x", .str "start", .str "<unknown>", .none, .none, Option.none, 0, [],
      .dict [(.str "Type", .str "x"), (.str "Action", .str "start")]⟩ rfl

namespace DockerEventWatcher

/-- C2: after sleeping for a connection-error failure the backoff becomes
`min(current * growth_factor, max_backoff)` with the retry counter
incremented; after every successful stream open both are reset (retries to
0, backoff to the initial value) — visible in the closed-stream iteration,
whose resulting state is `⟨0, initial_backoff⟩`; with initial=1, factor=2,
max=5 the sleeps under repeated connection errors are 1, 2, 4, 5, 5, 5 and
the sequence restarts at 1 after a successful connection. -/
theorem c2_backoff_escalation_and_reset :
    (∀ cfg s, exceeded cfg (s.retries + 1) = false →
      stepIter cfg s .connError =
        ([Obs.openStream, Obs.sleep s.backoff],
          some ⟨s.retries + 1, min (s.backoff * cfg.backoff_factor) cfg.max_backoff⟩)) ∧
    (∀ cfg s evs, stepIter cfg s (.stream evs .closed) =
        (Obs.openStream :: (dispatchObs evs 0 ++ [Obs.sleep cfg.initial_backoff]),
          some ⟨0, cfg.initial_backoff⟩)) ∧
    sleepsOf (runLoop cfgBackoffDemo false ⟨0, 1⟩ (List.replicate 6 .connError))
      = [1, 2, 4, 5, 5, 5] ∧
    sleepsOf (runLoop cfgBackoffDemo false ⟨0, 1⟩
        [.connError, .connError, .stream [] .closed, .connError, .connError])
      = [1, 2, 1, 1, 2] := by
  refine ⟨?_, ?_,
    by norm_num [runLoop, stepIter, onConnError, onStreamClosed, afterOpenReset, escalate,
      exceeded, cfgBackoffDemo, sleepsOf, dispatchObs, List.replicate, min_def,
      List.filterMap_cons],
    by norm_num [runLoop, stepIter, onConnError, onStreamClosed, afterOpenReset, escalate,
      exceeded, cfgBackoffDemo, sleepsOf, dispatchObs, List.replicate, min_def,
      List.filterMap_cons]⟩
  · intro cfg s h
    simp [stepIter, onConnError, escalate, h]
  · intro cfg s evs
    rfl

/-- C2 witness: one connection-error iteration at retries 0, backoff 1
under the demo configuration. -/
theorem c2_backoff_witness :
    stepIter cfgBackoffDemo ⟨0, 1⟩ .connError =
      ([Obs.openStream, Obs.sleep 1],
        some ⟨1, min ((1 : ℚ) * cfgBackoffDemo.backoff_factor) cfgBackoffDemo.max_backoff⟩) :=
  c2_backoff_escalation_and_reset.1 cfgBackoffDemo ⟨0, 1⟩ rfl

/-- C3: each connection error increments the retry counter; with
`max_retries = 3` and connection attempts that keep failing, the loop stops
fatally on the 4th consecutive error: the whole trace is four stream-open
attempts (with three backoff sleeps) ending in the fatal stop, however many
further attempts the environment would allow — exactly 4 opens, never a
5th. -/
theorem c3_retry_ceiling_stops_watcher :
    (∀ cfg s, exceeded cfg (s.retries + 1) = false →
      Option.map LoopState.retries (stepIter cfg s .connError).2 = some (s.retries + 1)) ∧
    (∀ cfg b n, cfg.max_retries = some 3 →
      runLoop cfg false ⟨0, b⟩ (List.replicate (4 + n) .connError) =
        [Obs.openStream, Obs.sleep b,
         Obs.openStream, Obs.sleep (escalate cfg b),
         Obs.openStream, Obs.sleep (escalate cfg (escalate cfg b)),
         Obs.openStream, Obs.fatal]) ∧
    (∀ cfg b n, cfg.max_retries = some 3 →
      openCount (runLoop cfg false ⟨0, b⟩ (List.replicate (4 + n) .connError)) = 4) := by
  have htrace : ∀ (cfg : WatcherConfig) (b : ℚ) (n : ℕ), cfg.max_retries = some 3 →
      runLoop cfg false ⟨0, b⟩ (List.replicate (4 + n) .connError) =
        [Obs.openStream, Obs.sleep b,
         Obs.openStream, Obs.sleep (escalate cfg b),
         Obs.openStream, Obs.sleep (escalate cfg (escalate cfg b)),
         Obs.openStream, Obs.fatal] := by
    intro cfg b n h
    rw [List.replicate_add]
    simp [List.replicate, runLoop, stepIter, onConnError, exceeded, h]
  refine ⟨?_, htrace, ?_⟩
  · intro cfg s h
    simp [stepIter, onConnError, escalate, h]
  · intro cfg b n h
    rw [htrace cfg b n h]
    rfl

/-- C3 witness: the ceiling behaviour at the concrete configuration with
`max_retries = 3`, starting backoff 1, and exactly four failing attempts. -/
theorem c3_retry_ceiling_witness :
    Option.map LoopState.retries (stepIter cfgRetryDemo ⟨0, 1⟩ .connError).2 = some 1 ∧
    runLoop cfgRetryDemo false ⟨0, 1⟩ (List.replicate 4 .connError) =
      [Obs.openStream, Obs.sleep 1,
       Obs.openStream, Obs.sleep (escalate cfgRetryDemo 1),
       Obs.openStream, Obs.sleep (escalate cfgRetryDemo (escalate cfgRetryDemo 1)),
       Obs.openStream, Obs.fatal] ∧
    openCount (runLoop cfgRetryDemo false ⟨0, 1⟩ (List.replicate 4 .connError)) = 4 :=
  ⟨c3_retry_ceiling_stops_watcher.1 cfgRetryDemo ⟨0, 1⟩ rfl,
   c3_retry_ceiling_stops_watcher.2.1 cfgRetryDemo 1 0 rfl,
   c3_retry_ceiling_stops_watcher.2.2 cfgRetryDemo 1 0 rfl⟩

/-- C4 counterexample: the claim says an unclassified error is counted
against the retry ceiling like a transient stream fault. With a ceiling of
0, a connection error at retries 0 stops the watcher fatally, but an
unclassified error sleeps and continues with the retry counter still 0 —
the two branches are observably different, and the unclassified branch
never consults the ceiling. -/
theorem c4_counterexample :
    stepIter cfgCeilZero ⟨0, 1⟩ .connError = ([Obs.openStream, Obs.fatal], Option.none) ∧
    stepIter cfgCeilZero ⟨0, 1⟩ .otherError
      = ([Obs.openStream, Obs.sleep 1], some ⟨0, 2⟩) ∧
    stepIter cfgCeilZero ⟨0, 1⟩ .otherError ≠ stepIter cfgCeilZero ⟨0, 1⟩ .connError := by
  have h1 : stepIter cfgCeilZero ⟨0, 1⟩ .connError
      = ([Obs.openStream, Obs.fatal], Option.none) := by
    norm_num [stepIter, onConnError, escalate, exceeded, cfgCeilZero]
  have h2 : stepIter cfgCeilZero ⟨0, 1⟩ .otherError
      = ([Obs.openStream, Obs.sleep 1], some ⟨0, 2⟩) := by
    norm_num [stepIter, onOtherError, escalate, exceeded, cfgCeilZero, min_def]
  exact ⟨h1, h2, by rw [h1, h2]; simp⟩

/-- C4 amended: an unclassified/unexpected error in the loop sleeps the
current backoff and escalates it exactly like a recoverable connection
error, but it does NOT increment the retry counter and is never checked
against the configured retry ceiling. -/
theorem c4_unclassified_error_amended :
    ∀ cfg s, stepIter cfg s .otherError =
      ([Obs.openStream, Obs.sleep s.backoff],
        some ⟨s.retries, min (s.backoff * cfg.backoff_factor) cfg.max_backoff⟩) := by
  intro cfg s
  rfl

/-- C5: when the stream ends without error and cancellation is not
requested, the loop warns, sleeps the current backoff, and reconnects;
this path leaves the retry counter and the backoff duration exactly as
they were (neither escalated nor reset), and the loop continues from the
same state. -/
theorem c5_stream_closure_keeps_state :
    (∀ s, onStreamClosed s = ([Obs.sleep s.backoff], some s)) ∧
    (∀ cfg s evs script, runLoop cfg false s (.stream evs .closed :: script) =
        (Obs.openStream :: (dispatchObs evs 0 ++ [Obs.sleep cfg.initial_backoff])) ++
          runLoop cfg false ⟨0, cfg.initial_backoff⟩ script) := by
  refine ⟨fun s => rfl, ?_⟩
  intro cfg s evs script
  simp [runLoop, stepIter, onStreamClosed, afterOpenReset]

/-- The dispatch observables of the for-loop body enumerate the yielded
events in order, starting at the given index, whatever the handler-raising
flags are. -/
theorem dispatchesOf_dispatchObs :
    ∀ (evs : List Bool) (k : ℕ),
      dispatchesOf (dispatchObs evs k) = List.range' k evs.length := by
  intro evs
  induction evs with
  | nil => intro k; rfl
  | cons e rest ih =>
    intro k
    have ih2 := ih (k + 1)
    unfold dispatchesOf at ih2 ⊢
    cases e <;>
      simp [dispatchObs, List.filterMap_cons, List.filterMap_append, List.range', ih2]

/-- The connection-error branch dispatches no events. -/
theorem dispatchesOf_onConnError (cfg : WatcherConfig) (s : LoopState) :
    dispatchesOf (onConnError cfg s).1 = [] := by
  simp only [onConnError]
  split <;> rfl

/-- C9: in a streaming iteration every yielded event is dispatched to the
handler exactly once, in order — the dispatched indices are
`0, …, n−1` for n yielded events, independent of which handlers raise
(each raise is caught and logged) and of how the stream ends; in
particular a handler that raises on event K does not prevent event K+1
from being dispatched. -/
theorem c9_every_event_dispatched :
    ∀ cfg s evs endK,
      dispatchesOf (stepIter cfg s (.stream evs endK)).1 = List.range evs.length := by
  intro cfg s evs endK
  have hobs : ∀ l, dispatchesOf (Obs.openStream :: l) = dispatchesOf l := fun l => rfl
  have happ : ∀ l1 l2, dispatchesOf (l1 ++ l2) = dispatchesOf l1 ++ dispatchesOf l2 := by
    intro l1 l2
    unfold dispatchesOf
    exact List.filterMap_append l1 l2 _
  cases endK with
  | closed =>
    show dispatchesOf (Obs.openStream :: (dispatchObs evs 0 ++ _)) = _
    rw [hobs, happ, dispatchesOf_dispatchObs, List.range_eq_range']
    simp [onStreamClosed, dispatchesOf, List.filterMap_cons]
  | raiseConn =>
    show dispatchesOf (Obs.openStream :: (dispatchObs evs 0 ++ (onConnError cfg _).1)) = _
    rw [hobs, happ, dispatchesOf_dispatchObs, dispatchesOf_onConnError, List.range_eq_range']
    simp
  | raiseOther =>
    show dispatchesOf (Obs.openStream :: (dispatchObs evs 0 ++ _)) = _
    rw [hobs, happ, dispatchesOf_dispatchObs, List.range_eq_range']
    simp [onOtherError, dispatchesOf, List.filterMap_cons]

/-- C10: once the cancellation flag is set no watcher operation clears it
(`stop` sets it, the start operations leave it alone), and any run of the
loop with the flag set exits at its first checkpoint with an empty trace —
it neither opens the event stream nor invokes the handler. -/
theorem c10_stop_flag_permanent :
    (∀ ops : List WatcherOp, List.foldl applyOp true ops = true) ∧
    (∀ cfg s script, runLoop cfg true s script = []) := by
  constructor
  · intro ops
    induction ops with
    | nil => rfl
    | cons op rest ih => cases op <;> simpa [applyOp] using ih
  · intro cfg s script
    cases script with
    | nil => rfl
    | cons a rest => simp [runLoop]

end DockerEventWatcher

end MoonDock
